import Mathlib

/-!
Verification development for the quizgenix quiz-generation pipeline.

The Python source is shallowly embedded:
pure helpers become Lean functions, Django ORM persistence becomes
explicit state values, exceptions become `Except`, and the external
model endpoint becomes an explicit outcome parameter.  Python's
`json.loads` (standard library, not repository code) is embedded as a
fuel-based recursive-descent decoder over the JSON fragment the
pipeline exercises: objects, arrays, strings with simple escapes,
integers, booleans and null; floats, exponents and unicode escapes are
outside the modelled fragment.
-/

namespace QuizGenix

/-- JSON values as produced by the embedded decoder. -/
inductive Json where
  | null : Json
  | bool (b : Bool) : Json
  | num (n : Int) : Json
  | str (s : String) : Json
  | arr (elems : List Json) : Json
  | obj (members : List (String × Json)) : Json
  deriving Repr

/-- Named characters, so that brace and quote characters never appear
as literals in the file. -/
def lbrace : Char := Char.ofNat 123

def rbrace : Char := Char.ofNat 125

def dquote : Char := Char.ofNat 34

def bslash : Char := Char.ofNat 92

def isWsChar (c : Char) : Bool :=
  c = ' ' || c = '\n' || c = '\t' || c = '\r'

def skipWs : List Char → List Char
  | [] => []
  | c :: rest => if isWsChar c then skipWs rest else c :: rest

/-- Consume an expected literal character sequence. -/
def dropLit : List Char → List Char → Option (List Char)
  | [], s => some s
  | _ :: _, [] => none
  | e :: es, c :: s => if c = e then dropLit es s else none

/-- Decode the body of a JSON string after the opening quote; returns the
decoded characters and the remainder after the closing quote. -/
def parseStrChars : Nat → List Char → Option (List Char × List Char)
  | 0, _ => none
  | _, [] => none
  | fuel + 1, c :: rest =>
    if c = dquote then some ([], rest)
    else if c = bslash then
      match rest with
      | [] => none
      | e :: rest2 =>
        let m := if e = 'n' then '\n' else if e = 't' then '\t' else e
        match parseStrChars fuel rest2 with
        | some (cs, r) => some (m :: cs, r)
        | none => none
    else
      match parseStrChars fuel rest with
      | some (cs, r) => some (c :: cs, r)
      | none => none

def digitsToNat (ds : List Char) : Nat :=
  ds.foldl (fun a c => a * 10 + (c.toNat - 48)) 0

/-- Decode an integer literal (the modelled numeric fragment). -/
def parseNum (s : List Char) : Option (Json × List Char) :=
  let neg : Bool := match s with
    | c :: _ => c = '-'
    | [] => false
  let s1 := if neg then s.drop 1 else s
  let ds := s1.takeWhile Char.isDigit
  let r := s1.dropWhile Char.isDigit
  if ds.isEmpty then none
  else
    let bad : Bool := match r with
      | c :: _ => c = '.' || c = 'e' || c = 'E'
      | [] => false
    if bad then none
    else
      let n : Int := Int.ofNat (digitsToNat ds)
      some (Json.num (if neg then -n else n), r)

mutual

/-- Decode one JSON value; returns the value and the unconsumed remainder. -/
def parseVal : Nat → List Char → Option (Json × List Char)
  | 0, _ => none
  | fuel + 1, s =>
    match skipWs s with
    | [] => none
    | c :: rest =>
      if c = dquote then
        match parseStrChars (rest.length + 1) rest with
        | some (cs, r) => some (Json.str (String.mk cs), r)
        | none => none
      else if c = '[' then
        match skipWs rest with
        | [] => none
        | d :: rest2 =>
          if d = ']' then some (Json.arr [], rest2)
          else
            match parseElems fuel (d :: rest2) with
            | some (vs, r) => some (Json.arr vs, r)
            | none => none
      else if c = lbrace then
        match skipWs rest with
        | [] => none
        | d :: rest2 =>
          if d = rbrace then some (Json.obj [], rest2)
          else
            match parseMembers fuel (d :: rest2) with
            | some (ms, r) => some (Json.obj ms, r)
            | none => none
      else if c = 't' then
        match dropLit ['r', 'u', 'e'] rest with
        | some r => some (Json.bool true, r)
        | none => none
      else if c = 'f' then
        match dropLit ['a', 'l', 's', 'e'] rest with
        | some r => some (Json.bool false, r)
        | none => none
      else if c = 'n' then
        match dropLit ['u', 'l', 'l'] rest with
        | some r => some (Json.null, r)
        | none => none
      else parseNum (c :: rest)

/-- Decode a non-empty comma-separated element list up to the closing bracket. -/
def parseElems : Nat → List Char → Option (List Json × List Char)
  | 0, _ => none
  | fuel + 1, s =>
    match parseVal fuel s with
    | none => none
    | some (v, r) =>
      match skipWs r with
      | [] => none
      | c :: r2 =>
        if c = ',' then
          match parseElems fuel r2 with
          | some (vs, r3) => some (v :: vs, r3)
          | none => none
        else if c = ']' then some ([v], r2)
        else none

/-- Decode a non-empty comma-separated member list up to the closing brace. -/
def parseMembers : Nat → List Char → Option (List (String × Json) × List Char)
  | 0, _ => none
  | fuel + 1, s =>
    match skipWs s with
    | [] => none
    | c :: rest =>
      if c = dquote then
        match parseStrChars (rest.length + 1) rest with
        | none => none
        | some (key, r) =>
          match skipWs r with
          | [] => none
          | d :: r2 =>
            if d = ':' then
              match parseVal fuel r2 with
              | none => none
              | some (v, r3) =>
                match skipWs r3 with
                | [] => none
                | e :: r4 =>
                  if e = ',' then
                    match parseMembers fuel r4 with
                    | some (ms, r5) => some ((String.mk key, v) :: ms, r5)
                    | none => none
                  else if e = rbrace then some ([(String.mk key, v)], r4)
                  else none
            else none
      else none

end

/-- Embedding of Python `json.loads`: decode one document and reject
trailing non-whitespace content. -/
def json_loads (s : String) : Except Unit Json :=
  let cs := s.data
  match parseVal (2 * cs.length + 16) cs with
  | some (v, r) => if skipWs r = [] then Except.ok v else Except.error ()
  | none => Except.error ()

/-- Index of the last occurrence of `c` in `s`. -/
def lastIdxOf (c : Char) (s : List Char) : Option Nat :=
  match s.reverse.findIdx? (fun d => d = c) with
  | some k => some (s.length - 1 - k)
  | none => none

/-- Embedding of a greedy `re.search` for the pattern "open, anything,
close": the match runs from the first occurrence of `op` that precedes
the final occurrence of `cl` up to that final occurrence. -/
def reSearchSpan (op cl : Char) (s : String) : Option String :=
  let cs := s.data
  match lastIdxOf cl cs with
  | none => none
  | some j =>
    match cs.findIdx? (fun d => d = op) with
    | none => none
    | some i => if i < j then some (String.mk ((cs.drop i).take (j - i + 1))) else none

/-- Python exceptions that escape the embedded fragment. -/
inductive PyError where
  | valueError : PyError
  | attributeError : PyError
  | typeError : PyError
  deriving DecidableEq, Repr

/-- Python `dict.get` on a decoded JSON object (`json.loads` keeps the
last occurrence of a duplicated key). -/
def dictGet (kvs : List (String × Json)) (k : String) : Option Json :=
  (kvs.reverse.find? (fun p => p.1 = k)).map (fun p => p.2)

/-- `dict.get` with a default, applied to a decoded value that is known
to be an object (a valid JSON document beginning with a brace). -/
def jGetD (v : Json) (k : String) (d : Json) : Json :=
  match v with
  | Json.obj kvs => (dictGet kvs k).getD d
  | _ => d

/-- Embedding of `QuizGenerator.parse_quiz_response`: take the greedy
first-bracket-to-last-bracket substring and decode it; only when no such
substring exists, decode the whole response and read its questions
field, falling back to the whole decoded value.  A decode failure
raises `ValueError`; `dict.get` on a decoded non-object raises
`AttributeError`. -/
def parse_quiz_response (response : String) : Except PyError Json :=
  match reSearchSpan '[' ']' response with
  | some sub =>
    match json_loads sub with
    | Except.ok v => Except.ok v
    | Except.error _ => Except.error PyError.valueError
  | none =>
    match json_loads response with
    | Except.ok (Json.obj kvs) => Except.ok ((dictGet kvs "questions").getD (Json.obj kvs))
    | Except.ok _ => Except.error PyError.attributeError
    | Except.error _ => Except.error PyError.valueError

/-- The feedback triple held by a `Result` record; field values come
from decoded JSON and are unvalidated. -/
structure FeedbackDraft where
  strength_analysis : Json
  weakness_analysis : Json
  suggestions : Json
  deriving Repr

/-- Fallback triple of `parse_feedback_response` when the response holds
no brace-delimited substring. -/
def noJsonFallback : FeedbackDraft :=
  ⟨Json.str "Good effort on the quiz.",
   Json.str "Some areas need improvement.",
   Json.str "Review the topics and try again."⟩

/-- Fallback triple of `parse_feedback_response` when the located
substring fails to decode. -/
def decodeErrorFallback : FeedbackDraft :=
  ⟨Json.str "Keep practicing to improve.",
   Json.str "Review the material more thoroughly.",
   Json.str "Consider retaking the quiz after studying."⟩

/-- Embedding of `PerformanceAnalyzer.parse_feedback_response`: take the
greedy first-brace-to-last-brace substring; on success read the three
fields with `dict.get` defaulting each absent key to the empty string;
return a fixed triple when the substring is absent or fails to decode. -/
def parse_feedback_response (response : String) : FeedbackDraft :=
  match reSearchSpan lbrace rbrace response with
  | none => noJsonFallback
  | some sub =>
    match json_loads sub with
    | Except.error _ => decodeErrorFallback
    | Except.ok v =>
      ⟨jGetD v "strength_analysis" (Json.str ""),
       jGetD v "weakness_analysis" (Json.str ""),
       jGetD v "suggestions" (Json.str "")⟩

/-- Whether a decoded value is a JSON object (a Python dict). -/
def Json.isObj : Json → Bool
  | Json.obj _ => true
  | _ => false

/-- Python truthiness of an optional string: `None` and the empty string
are falsy. -/
def pyTruthy : Option String → Bool
  | none => false
  | some s => !(s = "")

/-- Python `a or b` over optional strings. -/
def pyOrOpt (a b : Option String) : Option String :=
  if pyTruthy a then a else b

/-- The known placeholder credential rejected by the guard. -/
def placeholderKey : String := "your_actual_gemini_api_key_here"

/-- Credential resolution chain shared by `QuizGenerator.__init__` and
`PerformanceAnalyzer.__init__`: settings GOOGLE_API_KEY, else settings
GEMINI_API_KEY, else the environment variable. -/
def apiKeyOf (googleKey geminiKey envKey : Option String) : Option String :=
  pyOrOpt (pyOrOpt googleKey geminiKey) envKey

/-- The guard condition of both constructors: raise `APIKeyError` when
the resolved credential is falsy or equals the placeholder. -/
def guardFails (googleKey geminiKey envKey : Option String) : Bool :=
  !(pyTruthy (apiKeyOf googleKey geminiKey envKey)) ||
    apiKeyOf googleKey geminiKey envKey = some placeholderKey

/-- Outcome of the external model invocation (the sole network call). -/
inductive ModelOutcome where
  | ok (response : String) : ModelOutcome
  | failure : ModelOutcome
  deriving DecidableEq, Repr

/-- Failures of a generation or feedback invocation. -/
inductive GenFailure where
  | apiKeyError : GenFailure
  | modelCallError : GenFailure
  | pyError (e : PyError) : GenFailure
  deriving DecidableEq, Repr

/-- Embedding of the module-level `generate_quiz_questions`: constructor
guard, then the model call, then `parse_quiz_response`.  A failing guard
returns before the model outcome is ever examined. -/
def generate_quiz_questions (googleKey geminiKey envKey : Option String)
    (model : ModelOutcome) : Except GenFailure Json :=
  if guardFails googleKey geminiKey envKey then Except.error GenFailure.apiKeyError
  else
    match model with
    | ModelOutcome.failure => Except.error GenFailure.modelCallError
    | ModelOutcome.ok response =>
      match parse_quiz_response response with
      | Except.ok v => Except.ok v
      | Except.error e => Except.error (GenFailure.pyError e)

/-- Embedding of the module-level `generate_performance_feedback`:
constructor guard, then the model call, then `parse_feedback_response`
(which never fails). -/
def generate_performance_feedback (googleKey geminiKey envKey : Option String)
    (model : ModelOutcome) : Except GenFailure FeedbackDraft :=
  if guardFails googleKey geminiKey envKey then Except.error GenFailure.apiKeyError
  else
    match model with
    | ModelOutcome.failure => Except.error GenFailure.modelCallError
    | ModelOutcome.ok response => Except.ok (parse_feedback_response response)

/-- A persisted `Question` row; fields hold the decoded JSON values
unvalidated, exactly as `Question.objects.create` receives them. -/
structure QuestionRec where
  question_text : Json
  option_a : Json
  option_b : Json
  option_c : Json
  option_d : Json
  correct_answer : Json
  explanation : Json
  order : Nat
  deriving Repr

/-- Python `q.get(k, d)`: requires `q` to be a dict, else raises
`AttributeError`. -/
def pyGet (q : Json) (k : String) (d : Json) : Except PyError Json :=
  match q with
  | Json.obj kvs => Except.ok ((dictGet kvs k).getD d)
  | _ => Except.error PyError.attributeError

/-- Embedding of the option lookup in the views:
the draft may lack an options entry (default empty dict), but a present
non-dict options value makes the inner `.get` raise. -/
def optionSlot (q : Json) (k : String) : Except PyError Json := do
  let opts ← pyGet q "options" (Json.obj [])
  pyGet opts k (Json.str "")

/-- Embedding of the `Question.objects.create(...)` call for one draft
at 1-based position `idx`: every missing field defaults (empty strings,
correct answer A); a non-dict draft raises. -/
def buildQuestion (idx : Nat) (q : Json) : Except PyError QuestionRec := do
  let qt ← pyGet q "question" (Json.str "")
  let a ← optionSlot q "A"
  let b ← optionSlot q "B"
  let c ← optionSlot q "C"
  let d ← optionSlot q "D"
  let ca ← pyGet q "correct_answer" (Json.str "A")
  let ex ← pyGet q "explanation" (Json.str "")
  pure ⟨qt, a, b, c, d, ca, ex, idx⟩

/-- Python iteration over the parsed value: a list yields its elements,
a dict yields its keys, a string yields its characters, anything else
raises `TypeError`. -/
def pyIterate (v : Json) : Except PyError (List Json) :=
  match v with
  | Json.arr l => Except.ok l
  | Json.obj kvs => Except.ok (kvs.map (fun p => Json.str p.1))
  | Json.str s => Except.ok (s.data.map (fun c => Json.str (String.mk [c])))
  | _ => Except.error PyError.typeError

/-- Python `enumerate(xs, i)`. -/
def enumFrom : Nat → List α → List (Nat × α)
  | _, [] => []
  | i, a :: as => (i, a) :: enumFrom (i + 1) as

/-- Sequential effectful map that aborts at the first error, mirroring
the persistence loop in the views. -/
def mapMExcept (f : α → Except ε β) : List α → Except ε (List β)
  | [] => Except.ok []
  | a :: as =>
    match f a with
    | Except.error e => Except.error e
    | Except.ok b =>
      match mapMExcept f as with
      | Except.error e => Except.error e
      | Except.ok bs => Except.ok (b :: bs)

/-- The question-persistence loop of `create_quiz` and
`create_quiz_from_topic`: iterate the parsed data with 1-based indices
and persist one `Question` per draft.  On any raised error the caller
deletes the quiz, which cascades over the rows already created, so the
net persisted effect is all-or-nothing. -/
def persistQuestions (v : Json) : Except PyError (List QuestionRec) := do
  let items ← pyIterate v
  mapMExcept (fun p => buildQuestion p.1 p.2) (enumFrom 1 items)

/-- A persisted `Quiz` row together with its cascade-owned questions. -/
structure QuizRec where
  subject : String
  difficulty : String
  number_of_questions : Int
  is_completed : Bool
  questionList : List QuestionRec
  deriving Repr

/-- Net persisted quiz after the shared generation section of
`create_quiz` and `create_quiz_from_topic`: the quiz row is created
empty, questions are persisted from the generation outcome, and the
completion flag is set; any exception triggers `quiz.delete()`, leaving
no quiz (and, by cascade, no questions). -/
def quizAfterGeneration (subject difficulty : String) (num : Int)
    (gen : Except GenFailure Json) : Option QuizRec :=
  match gen with
  | Except.error _ => none
  | Except.ok qdata =>
    match persistQuestions qdata with
    | Except.error _ => none
    | Except.ok recs => some ⟨subject, difficulty, num, true, recs⟩

/-- Whether a given generation outcome aborts the quiz-creation
operation: the generation call raised, or persisting its drafts raised. -/
def genPersistFails (gen : Except GenFailure Json) : Bool :=
  match gen with
  | Except.error _ => true
  | Except.ok v =>
    match persistQuestions v with
    | Except.error _ => true
    | Except.ok _ => false

/-- Whether the generation-plus-persistence pipeline fails for the given
configuration and model outcome. -/
def pipelineFails (googleKey geminiKey envKey : Option String)
    (model : ModelOutcome) : Bool :=
  genPersistFails (generate_quiz_questions googleKey geminiKey envKey model)

/-- Net persisted state of one `create_quiz_from_topic` request: whether
the placeholder document row survived, and the surviving quiz. -/
structure TopicCreateState where
  docCreated : Bool
  quiz : Option QuizRec
  deriving Repr

/-- Embedding of the `create_quiz_from_topic` view (POST path): input
validation first; then the placeholder `PDFDocument` and the empty
`Quiz` are created; generation failure or persistence failure deletes
only the quiz. -/
def create_quiz_from_topic (topic difficulty : String) (num : Int)
    (googleKey geminiKey envKey : Option String) (model : ModelOutcome) :
    TopicCreateState :=
  if topic = "" then ⟨false, none⟩
  else if !(difficulty = "Easy" || difficulty = "Medium" || difficulty = "Hard") then
    ⟨false, none⟩
  else if num < 1 || num > 50 then ⟨false, none⟩
  else
    ⟨true, quizAfterGeneration topic difficulty num
      (generate_quiz_questions googleKey geminiKey envKey model)⟩

/-- Embedding of the `create_quiz` view (POST path, PDF-based): same
validation plus the extractable-text check; no placeholder document is
created, and failure deletes only the quiz. -/
def create_quiz (textContent : Option String) (subject difficulty : String)
    (num : Int) (googleKey geminiKey envKey : Option String)
    (model : ModelOutcome) : Option QuizRec :=
  if subject = "" then none
  else if !(difficulty = "Easy" || difficulty = "Medium" || difficulty = "Hard") then
    none
  else if num < 1 || num > 50 then none
  else if !(pyTruthy textContent) then none
  else quizAfterGeneration subject difficulty num
    (generate_quiz_questions googleKey geminiKey envKey model)

/-- The slice of a `Question` row that grading consults. -/
structure GQuestion where
  id : Nat
  question_text : String
  correct_answer : String
  deriving DecidableEq, Repr

/-- One persisted `UserAnswer` store: keys are (user id, question id)
pairs, per the unique_together constraint on `UserAnswer.Meta`; values
are the selected label and the precomputed correctness flag. -/
abbrev AnswerStore := List ((Nat × Nat) × (String × Bool))

/-- Embedding of `UserAnswer.objects.update_or_create`: update the row
holding the key in place when one exists, otherwise append a new row. -/
def update_or_create (store : AnswerStore) (k : Nat × Nat) (v : String × Bool) :
    AnswerStore :=
  if store.any (fun p => p.1 = k) then
    store.map (fun p => if p.1 = k then (k, v) else p)
  else store ++ [(k, v)]

/-- POST lookup for the answer to one question
(`request.POST.get` returns the first value or `None`). -/
def lookupAnswer (post : List (Nat × String)) (qid : Nat) : Option String :=
  (post.find? (fun p => p.1 = qid)).map (fun p => p.2)

/-- Accumulated grading state of the `submit_quiz` loop. -/
structure GradeState where
  score : Nat
  correct_count : Nat
  wrong_count : Nat
  answerStore : AnswerStore
  deriving DecidableEq, Repr

/-- One iteration of the grading loop: a missing or empty submitted
value is skipped entirely (Python truthiness); a present value is
compared for exact equality with the correct label, bumps exactly one
counter, and is upserted. -/
def gradeStep (u : Nat) (post : List (Nat × String)) (st : GradeState)
    (q : GQuestion) : GradeState :=
  match lookupAnswer post q.id with
  | none => st
  | some sel =>
    if sel = "" then st
    else
      let ic : Bool := sel = q.correct_answer
      ⟨st.score + (if ic then 1 else 0),
       st.correct_count + (if ic then 1 else 0),
       st.wrong_count + (if ic then 0 else 1),
       update_or_create st.answerStore (u, q.id) (sel, ic)⟩

/-- The grading loop of `submit_quiz`, iterating the quiz's questions in
their storage order (the `Question.Meta` ordering by ordinal). -/
def submit_quiz_loop (u : Nat) (questions : List GQuestion)
    (post : List (Nat × String)) (store0 : AnswerStore) : GradeState :=
  questions.foldl (gradeStep u post) ⟨0, 0, 0, store0⟩

/-- Round half to even, the tie rule of Python `round`. -/
def round_half_even (q : ℚ) : ℤ :=
  let f := ⌊q⌋
  if q - f < 1 / 2 then f
  else if 1 / 2 < q - f then f + 1
  else if f % 2 = 0 then f else f + 1

/-- Python `round(x, 2)`; floats are modelled as exact rationals. -/
def pyRound2 (q : ℚ) : ℚ := (round_half_even (q * 100) : ℚ) / 100

/-- The percentage expression of `submit_quiz` before rounding. -/
def percentageOf (score total : Nat) : ℚ :=
  if 0 < total then (score : ℚ) / (total : ℚ) * 100 else 0

/-- The fallback feedback triple of `submit_quiz` on `APIKeyError`. -/
def apiKeyFeedback : FeedbackDraft :=
  ⟨Json.str "AI service not configured. Please contact administrator for detailed feedback.",
   Json.str "AI service not configured. Please contact administrator for detailed feedback.",
   Json.str "AI service not configured. Please contact administrator for detailed feedback."⟩

/-- The fallback feedback triple of `submit_quiz` on any other
exception from the feedback call. -/
def genericErrorFeedback : FeedbackDraft :=
  ⟨Json.str "Keep practicing to improve your understanding.",
   Json.str "Review the topics you got wrong.",
   Json.str "Consider retaking the quiz after studying."⟩

/-- The try/except around `generate_performance_feedback` in
`submit_quiz`: `APIKeyError` and every other exception are each
absorbed into a fixed triple. -/
def feedbackOrFallback (fb : Except GenFailure FeedbackDraft) : FeedbackDraft :=
  match fb with
  | Except.ok f => f
  | Except.error GenFailure.apiKeyError => apiKeyFeedback
  | Except.error _ => genericErrorFeedback

/-- A persisted `Result` row. -/
structure ResultRec where
  score : Nat
  total_questions : Nat
  correct_answers : Nat
  wrong_answers : Nat
  percentage : ℚ
  strength_analysis : Json
  weakness_analysis : Json
  suggestions : Json
  deriving Repr

/-- Embedding of the `submit_quiz` view (POST path): grade every
question, compute the guarded percentage, absorb feedback failures, and
persist the `Result` unconditionally.  Returns the created row and the
updated answer store. -/
def submit_quiz (u : Nat) (questions : List GQuestion)
    (post : List (Nat × String)) (store0 : AnswerStore)
    (fb : Except GenFailure FeedbackDraft) : ResultRec × AnswerStore :=
  let g := submit_quiz_loop u questions post store0
  let total := questions.length
  let pct := if 0 < total then (g.score : ℚ) / (total : ℚ) * 100 else 0
  let f := feedbackOrFallback fb
  (⟨g.score, total, g.correct_count, g.wrong_count, pyRound2 pct,
    f.strength_analysis, f.weakness_analysis, f.suggestions⟩,
   g.answerStore)

/-- The submitted answer the grading loop actually uses for question
`q`: present and non-empty, else treated as unanswered. -/
def presentAnswer (post : List (Nat × String)) (q : GQuestion) : Option String :=
  match lookupAnswer post q.id with
  | none => none
  | some sel => if sel = "" then none else some sel

/-- Whether the learner answered `q` (non-empty submission). -/
def hasChoice (post : List (Nat × String)) (q : GQuestion) : Bool :=
  (presentAnswer post q).isSome

/-- Whether the learner answered `q` with the correct label. -/
def isCorrectChoice (post : List (Nat × String)) (q : GQuestion) : Bool :=
  match presentAnswer post q with
  | some sel => sel = q.correct_answer
  | none => false

/-- Whether the learner answered `q` with a wrong label. -/
def isWrongChoice (post : List (Nat × String)) (q : GQuestion) : Bool :=
  match presentAnswer post q with
  | some sel => !(sel = q.correct_answer)
  | none => false

/-- The persistence effect of one grading iteration: an upsert for a
present non-empty answer, no store access otherwise. -/
def persistStep (u : Nat) (post : List (Nat × String)) (s : AnswerStore)
    (q : GQuestion) : AnswerStore :=
  match presentAnswer post q with
  | none => s
  | some sel => update_or_create s (u, q.id) (sel, sel = q.correct_answer)

/-! Theorems settling the claims. -/

/-- Claim C2 counterexample: on the input consisting of one empty JSON
object, `parse_feedback_response` returns a triple of three empty
strings, so the absent keys are not defaulted to non-empty generic
sentences. -/
theorem parse_feedback_empty_object_cex :
    parse_feedback_response "\x7b\x7d" =
      ⟨Json.str "", Json.str "", Json.str ""⟩ := rfl

/-- Claim C2 (amended): `parse_feedback_response` is total and always
returns a complete triple; when the brace-delimited substring decodes,
each absent key independently defaults to the empty string, and the
generic sentences appear only when no brace substring exists or its
decoding fails. -/
theorem parse_feedback_total_shape (s : String) :
    (reSearchSpan lbrace rbrace s = none ∧
      parse_feedback_response s = noJsonFallback) ∨
    (∃ sub, reSearchSpan lbrace rbrace s = some sub ∧
      json_loads sub = Except.error () ∧
      parse_feedback_response s = decodeErrorFallback) ∨
    (∃ sub v, reSearchSpan lbrace rbrace s = some sub ∧
      json_loads sub = Except.ok v ∧
      parse_feedback_response s =
        ⟨jGetD v "strength_analysis" (Json.str ""),
         jGetD v "weakness_analysis" (Json.str ""),
         jGetD v "suggestions" (Json.str "")⟩) := by
  cases h1 : reSearchSpan lbrace rbrace s with
  | none =>
    left
    exact ⟨rfl, by simp [parse_feedback_response, h1]⟩
  | some sub =>
    cases h2 : json_loads sub with
    | error e =>
      cases e
      right; left
      exact ⟨sub, rfl, h2, by simp [parse_feedback_response, h1, h2]⟩
    | ok v =>
      right; right
      exact ⟨sub, v, rfl, h2, by simp [parse_feedback_response, h1, h2]⟩

/-- Claim C4 counterexample: on this input the bracket substring exists
but fails to decode, and the code raises `ValueError` without trying
the whole text, even though the whole text decodes to an object whose
questions field would have been available. -/
theorem parse_quiz_no_whole_text_fallback_cex :
    parse_quiz_response "\x7b\"questions\":[1],\"z\":\"]\"\x7d" =
      Except.error PyError.valueError ∧
    json_loads "\x7b\"questions\":[1],\"z\":\"]\"\x7d" =
      Except.ok (Json.obj [("questions", Json.arr [Json.num 1]), ("z", Json.str "]")]) :=
  ⟨rfl, rfl⟩

/-- Claim C4 (amended): `parse_quiz_response` decodes the greedy
first-bracket-to-last-bracket substring when one exists, failing the
whole call when that substring does not decode; only when no bracket
substring exists does it decode the entire raw text and read its
questions field, falling back to the whole decoded object. -/
theorem parse_quiz_response_shape (s : String) :
    (∃ sub, reSearchSpan '[' ']' s = some sub ∧
      ((∃ v, json_loads sub = Except.ok v ∧
        parse_quiz_response s = Except.ok v) ∨
       (json_loads sub = Except.error () ∧
        parse_quiz_response s = Except.error PyError.valueError))) ∨
    (reSearchSpan '[' ']' s = none ∧
      ((∃ kvs, json_loads s = Except.ok (Json.obj kvs) ∧
        parse_quiz_response s =
          Except.ok ((dictGet kvs "questions").getD (Json.obj kvs))) ∨
       (json_loads s = Except.error () ∧
        parse_quiz_response s = Except.error PyError.valueError) ∨
       (∃ v, json_loads s = Except.ok v ∧ v.isObj = false ∧
        parse_quiz_response s = Except.error PyError.attributeError))) := by
  cases h1 : reSearchSpan '[' ']' s with
  | some sub =>
    left
    refine ⟨sub, rfl, ?_⟩
    cases h2 : json_loads sub with
    | ok v => exact Or.inl ⟨v, rfl, by simp [parse_quiz_response, h1, h2]⟩
    | error e =>
      cases e
      exact Or.inr ⟨rfl, by simp [parse_quiz_response, h1, h2]⟩
  | none =>
    right
    refine ⟨rfl, ?_⟩
    cases h2 : json_loads s with
    | error e =>
      cases e
      exact Or.inr (Or.inl ⟨rfl, by simp [parse_quiz_response, h1, h2]⟩)
    | ok v =>
      cases v with
      | obj kvs =>
        exact Or.inl ⟨kvs, rfl, by simp [parse_quiz_response, h1, h2]⟩
      | null =>
        exact Or.inr (Or.inr ⟨Json.null, rfl, rfl,
          by simp [parse_quiz_response, h1, h2]⟩)
      | bool b =>
        exact Or.inr (Or.inr ⟨Json.bool b, rfl, rfl,
          by simp [parse_quiz_response, h1, h2]⟩)
      | num n =>
        exact Or.inr (Or.inr ⟨Json.num n, rfl, rfl,
          by simp [parse_quiz_response, h1, h2]⟩)
      | str t =>
        exact Or.inr (Or.inr ⟨Json.str t, rfl, rfl,
          by simp [parse_quiz_response, h1, h2]⟩)
      | arr l =>
        exact Or.inr (Or.inr ⟨Json.arr l, rfl, rfl,
          by simp [parse_quiz_response, h1, h2]⟩)

/-- Claim C10: whatever the located JSON decodes to is returned
unchanged with no per-element validation, and field defaulting (empty
strings, correct answer A) happens only at persistence time. -/
theorem parse_returns_decoded_unchanged :
    (∀ s sub v, reSearchSpan '[' ']' s = some sub →
      json_loads sub = Except.ok v → parse_quiz_response s = Except.ok v) ∧
    buildQuestion 1 (Json.obj []) =
      Except.ok ⟨Json.str "", Json.str "", Json.str "", Json.str "",
        Json.str "", Json.str "A", Json.str "", 1⟩ ∧
    parse_quiz_response "[1, 2]" = Except.ok (Json.arr [Json.num 1, Json.num 2]) := by
  refine ⟨?_, rfl, rfl⟩
  intro s sub v h1 h2
  simp [parse_quiz_response, h1, h2]

/-- Witness for C10 at a concrete response. -/
theorem parse_returns_decoded_unchanged_witness :
    parse_quiz_response "[\"x\"]" = Except.ok (Json.arr [Json.str "x"]) :=
  parse_returns_decoded_unchanged.1 "[\"x\"]" "[\"x\"]"
    (Json.arr [Json.str "x"]) rfl rfl

theorem enumFrom_length (i : Nat) (l : List α) :
    (enumFrom i l).length = l.length := by
  induction l generalizing i with
  | nil => rfl
  | cons a as ih => simp [enumFrom, ih]

theorem mapMExcept_ok_length {f : α → Except ε β} :
    ∀ {l : List α} {res : List β}, mapMExcept f l = Except.ok res →
      res.length = l.length := by
  intro l
  induction l with
  | nil =>
    intro res h
    simp [mapMExcept] at h
    simp [← h]
  | cons a as ih =>
    intro res h
    simp only [mapMExcept] at h
    cases hf : f a with
    | error e => rw [hf] at h; exact absurd h (by simp)
    | ok b =>
      rw [hf] at h
      cases hm : mapMExcept f as with
      | error e => rw [hm] at h; exact absurd h (by simp)
      | ok bs =>
        rw [hm] at h
        simp at h
        subst h
        simp [ih hm]

theorem quizAfterGeneration_eq_none_iff (s d : String) (n : Int)
    (gen : Except GenFailure Json) :
    quizAfterGeneration s d n gen = none ↔ genPersistFails gen = true := by
  cases gen with
  | error e => simp [quizAfterGeneration, genPersistFails]
  | ok v =>
    cases hp : persistQuestions v with
    | error e => simp [quizAfterGeneration, genPersistFails, hp]
    | ok recs => simp [quizAfterGeneration, genPersistFails, hp]

/-- Claim C1 counterexample: a run through the topic view requesting
two questions, where the model returns a one-element array holding an
empty object, persists a completed quiz holding a single question whose
options are all empty strings — not the requested count and not four
non-empty options. -/
theorem quiz_persists_with_fewer_questions_cex :
    (create_quiz_from_topic "Math" "Easy" 2 (some "k") none none
        (ModelOutcome.ok "[\x7b\x7d]")).quiz =
      some ⟨"Math", "Easy", 2, true,
        [⟨Json.str "", Json.str "", Json.str "", Json.str "",
          Json.str "", Json.str "A", Json.str "", 1⟩]⟩ := rfl

/-- Claim C1 (amended): after the generation section, the persisted
quiz either does not exist (exactly when generation or persistence
raised, leaving no question records by cascade), or is completed and
holds exactly one defaulted question record per parsed draft — the
draft count, option contents and answer labels being unvalidated. -/
theorem quiz_creation_all_or_nothing (s d : String) (n : Int)
    (gen : Except GenFailure Json) :
    (quizAfterGeneration s d n gen = none ∧ genPersistFails gen = true) ∨
    (∃ v items recs, gen = Except.ok v ∧ pyIterate v = Except.ok items ∧
      persistQuestions v = Except.ok recs ∧ recs.length = items.length ∧
      quizAfterGeneration s d n gen = some ⟨s, d, n, true, recs⟩ ∧
      genPersistFails gen = false) := by
  cases gen with
  | error e => left; simp [quizAfterGeneration, genPersistFails]
  | ok v =>
    cases hp : persistQuestions v with
    | error e => left; simp [quizAfterGeneration, genPersistFails, hp]
    | ok recs =>
      right
      cases hi : pyIterate v with
      | error e =>
        exact absurd hp (by simp [persistQuestions, hi, Bind.bind, Except.bind])
      | ok items =>
        refine ⟨v, items, recs, rfl, hi, hp, ?_, ?_, ?_⟩
        · have hm : mapMExcept (fun p => buildQuestion p.1 p.2)
              (enumFrom 1 items) = Except.ok recs := by
            have := hp
            simp [persistQuestions, hi, Except.bind] at this
            exact this
          rw [mapMExcept_ok_length hm, enumFrom_length]
        · simp [quizAfterGeneration, hp]
        · simp [genPersistFails, hp]

/-- Claim C9 counterexample: a topic-based creation with valid inputs
and an unconfigured credential fails generation, and the final state
keeps the placeholder document row while holding no quiz — the
speculative document is not rolled back. -/
theorem topic_document_survives_failure_cex :
    create_quiz_from_topic "Math" "Easy" 5 none none none
        (ModelOutcome.ok "x") =
      ⟨true, none⟩ := rfl

/-- Claim C9 (amended): on a validated topic request whose generation
or persistence fails, the quiz row (and by cascade its questions) is
deleted, while the placeholder document row persists; the embedded
state records nothing else. -/
theorem failure_rolls_back_quiz_only (topic difficulty : String) (num : Int)
    (googleKey geminiKey envKey : Option String) (m : ModelOutcome)
    (ht : topic ≠ "")
    (hd : difficulty = "Easy" ∨ difficulty = "Medium" ∨ difficulty = "Hard")
    (h1 : 1 ≤ num) (h2 : num ≤ 50)
    (hf : pipelineFails googleKey geminiKey envKey m = true) :
    create_quiz_from_topic topic difficulty num googleKey geminiKey envKey m =
      ⟨true, none⟩ := by
  have hq : quizAfterGeneration topic difficulty num
      (generate_quiz_questions googleKey geminiKey envKey m) = none :=
    (quizAfterGeneration_eq_none_iff _ _ _ _).mpr hf
  have hdb : (difficulty = "Easy" || difficulty = "Medium" ||
      difficulty = "Hard") = true := by
    rcases hd with h | h | h <;> simp [h]
  have hnb : (num < 1 || num > 50) = false := by
    simp only [Bool.or_eq_false_iff, decide_eq_false_iff_not]
    omega
  simp [create_quiz_from_topic, ht, hdb, hnb, hq]

/-- Witness for C9 at a concrete failing run. -/
theorem failure_rolls_back_quiz_only_witness :
    create_quiz_from_topic "Math" "Easy" 5 none none none
        (ModelOutcome.ok "x") =
      ⟨true, none⟩ :=
  failure_rolls_back_quiz_only "Math" "Easy" 5 none none none
    (ModelOutcome.ok "x") (by decide) (Or.inl rfl) (by decide) (by decide) rfl

/-- Claim C6: for both the generation and the feedback invocation, the
operation fails with `APIKeyError` exactly when the resolved credential
chain is unset, empty, or the placeholder; when the guard fails the
outcome is fixed before the model outcome is consulted. -/
theorem credential_guard_spec (googleKey geminiKey envKey : Option String)
    (m : ModelOutcome) :
    ((generate_quiz_questions googleKey geminiKey envKey m =
        Except.error GenFailure.apiKeyError) ↔
      guardFails googleKey geminiKey envKey = true) ∧
    ((generate_performance_feedback googleKey geminiKey envKey m =
        Except.error GenFailure.apiKeyError) ↔
      guardFails googleKey geminiKey envKey = true) ∧
    (guardFails googleKey geminiKey envKey = true ↔
      (apiKeyOf googleKey geminiKey envKey = none ∨
       apiKeyOf googleKey geminiKey envKey = some "" ∨
       apiKeyOf googleKey geminiKey envKey = some placeholderKey)) ∧
    (guardFails googleKey geminiKey envKey = true →
      ∀ m', generate_quiz_questions googleKey geminiKey envKey m =
        generate_quiz_questions googleKey geminiKey envKey m') := by
  refine ⟨?_, ?_, ?_, ?_⟩
  · by_cases hg : guardFails googleKey geminiKey envKey = true
    · simp [generate_quiz_questions, hg]
    · simp only [hg, iff_false]
      simp only [Bool.not_eq_true] at hg
      simp only [generate_quiz_questions, hg, Bool.false_eq_true, if_false]
      cases m with
      | failure => simp
      | ok response =>
        cases hpr : parse_quiz_response response with
        | ok v => simp [hpr]
        | error e => simp [hpr]
  · by_cases hg : guardFails googleKey geminiKey envKey = true
    · simp [generate_performance_feedback, hg]
    · simp only [hg, iff_false]
      simp only [Bool.not_eq_true] at hg
      simp only [generate_performance_feedback, hg, Bool.false_eq_true, if_false]
      cases m with
      | failure => simp
      | ok response => simp
  · cases hk : apiKeyOf googleKey geminiKey envKey with
    | none => simp [guardFails, hk, pyTruthy]
    | some s =>
      by_cases hs : s = ""
      · subst hs; simp [guardFails, hk, pyTruthy]
      · by_cases hp : s = placeholderKey
        · subst hp; simp [guardFails, hk, pyTruthy, placeholderKey]
        · simp [guardFails, hk, pyTruthy, hs, hp]
  · intro hg m'
    simp [generate_quiz_questions, hg]

/-- Witness for C6 at a concrete unconfigured credential chain. -/
theorem credential_guard_spec_witness :
    generate_quiz_questions none none none (ModelOutcome.ok "x") =
      Except.error GenFailure.apiKeyError ∧
    generate_quiz_questions none none none (ModelOutcome.ok "x") =
      generate_quiz_questions none none none ModelOutcome.failure :=
  ⟨((credential_guard_spec none none none (ModelOutcome.ok "x")).1).mpr rfl,
   ((credential_guard_spec none none none (ModelOutcome.ok "x")).2.2.2) rfl
     ModelOutcome.failure⟩

theorem submit_loop_spec (u : Nat) (post : List (Nat × String)) :
    ∀ (qs : List GQuestion) (st : GradeState),
      qs.foldl (gradeStep u post) st =
        ⟨st.score + qs.countP (isCorrectChoice post),
         st.correct_count + qs.countP (isCorrectChoice post),
         st.wrong_count + qs.countP (isWrongChoice post),
         qs.foldl (persistStep u post) st.answerStore⟩ := by
  intro qs
  induction qs with
  | nil => intro st; simp
  | cons q qs ih =>
    intro st
    rw [List.foldl_cons, ih, List.foldl_cons]
    cases hl : lookupAnswer post q.id with
    | none =>
      simp [gradeStep, hl, persistStep, presentAnswer, isCorrectChoice,
        isWrongChoice, List.countP_cons]
    | some sel =>
      by_cases hs : sel = ""
      · subst hs
        simp [gradeStep, hl, persistStep, presentAnswer, isCorrectChoice,
          isWrongChoice, List.countP_cons]
      · by_cases hc : sel = q.correct_answer
        · subst hc
          simp [gradeStep, hl, hs, persistStep, presentAnswer,
            isCorrectChoice, isWrongChoice, List.countP_cons, GradeState.mk.injEq]
          omega
        · simp [gradeStep, hl, hs, hc, persistStep, presentAnswer,
            isCorrectChoice, isWrongChoice, List.countP_cons, GradeState.mk.injEq]
          omega

theorem countP_choice_split (post : List (Nat × String)) (qs : List GQuestion) :
    qs.countP (isCorrectChoice post) + qs.countP (isWrongChoice post) =
      qs.countP (hasChoice post) := by
  induction qs with
  | nil => rfl
  | cons q qs ih =>
    cases hp : presentAnswer post q with
    | none =>
      simp [List.countP_cons, isCorrectChoice, isWrongChoice, hasChoice, hp, ih]
    | some sel =>
      by_cases hc : sel = q.correct_answer
      · simp [List.countP_cons, isCorrectChoice, isWrongChoice, hasChoice, hp, hc]
        omega
      · simp [List.countP_cons, isCorrectChoice, isWrongChoice, hasChoice, hp, hc]
        omega

/-- Claim C3 counterexample: grading one question against an empty
submission leaves the wrong counter at zero and persists nothing — an
absent answer does not increment the wrong count. -/
theorem unanswered_not_counted_wrong_cex :
    (submit_quiz_loop 7 [⟨1, "q", "A"⟩] [] []).wrong_count = 0 ∧
    (submit_quiz_loop 7 [⟨1, "q", "A"⟩] [] []).answerStore = [] :=
  ⟨rfl, rfl⟩

/-- Claim C3 (amended): grading walks the questions in their storage
(ordinal) order; a question with no submitted answer, or an empty one,
is skipped entirely — it increments neither counter and touches no
Answer record — while each present non-empty answer is compared exactly
to the correct label, increments exactly one of the two counters, and
is upserted, in question order. -/
theorem grading_skips_unanswered (u : Nat) (qs : List GQuestion)
    (post : List (Nat × String)) (store0 : AnswerStore) :
    (submit_quiz_loop u qs post store0).score =
      (submit_quiz_loop u qs post store0).correct_count ∧
    (submit_quiz_loop u qs post store0).correct_count =
      qs.countP (isCorrectChoice post) ∧
    (submit_quiz_loop u qs post store0).wrong_count =
      qs.countP (isWrongChoice post) ∧
    (submit_quiz_loop u qs post store0).correct_count +
        (submit_quiz_loop u qs post store0).wrong_count =
      qs.countP (hasChoice post) ∧
    (submit_quiz_loop u qs post store0).answerStore =
      qs.foldl (persistStep u post) store0 := by
  rw [submit_quiz_loop, submit_loop_spec]
  refine ⟨rfl, by simp, by simp, ?_, rfl⟩
  simp [countP_choice_split]

theorem submit_loop_score_eq (u : Nat) (qs : List GQuestion)
    (post : List (Nat × String)) (store0 : AnswerStore) :
    (submit_quiz_loop u qs post store0).score =
      (submit_quiz_loop u qs post store0).correct_count := by
  rw [submit_quiz_loop, submit_loop_spec]

theorem submit_quiz_percentage_eq (u : Nat) (qs : List GQuestion)
    (post : List (Nat × String)) (store0 : AnswerStore)
    (fb : Except GenFailure FeedbackDraft) :
    (submit_quiz u qs post store0 fb).1.percentage =
      pyRound2 (if 0 < qs.length then
        ((submit_quiz_loop u qs post store0).score : ℚ) / (qs.length : ℚ) * 100
      else 0) := rfl

/-- Claim C5: grading and the persisted Result are untouched by the
feedback outcome; the two failure kinds are absorbed into two fixed,
mutually distinct triples; the Result row is produced in every case. -/
theorem grading_absorbs_feedback_failures (u : Nat) (qs : List GQuestion)
    (post : List (Nat × String)) (store0 : AnswerStore)
    (fb fb' : Except GenFailure FeedbackDraft) :
    (submit_quiz u qs post store0 fb).1.score =
      (submit_quiz_loop u qs post store0).score ∧
    (submit_quiz u qs post store0 fb).1.total_questions = qs.length ∧
    (submit_quiz u qs post store0 fb).1.correct_answers =
      (submit_quiz_loop u qs post store0).correct_count ∧
    (submit_quiz u qs post store0 fb).1.wrong_answers =
      (submit_quiz_loop u qs post store0).wrong_count ∧
    (submit_quiz u qs post store0 fb).2 =
      (submit_quiz_loop u qs post store0).answerStore ∧
    (submit_quiz u qs post store0 fb).1.percentage =
      (submit_quiz u qs post store0 fb').1.percentage ∧
    (submit_quiz u qs post store0 fb).1.strength_analysis =
      (feedbackOrFallback fb).strength_analysis ∧
    (submit_quiz u qs post store0 fb).1.weakness_analysis =
      (feedbackOrFallback fb).weakness_analysis ∧
    (submit_quiz u qs post store0 fb).1.suggestions =
      (feedbackOrFallback fb).suggestions ∧
    feedbackOrFallback (Except.error GenFailure.apiKeyError) = apiKeyFeedback ∧
    feedbackOrFallback (Except.error GenFailure.modelCallError) =
      genericErrorFeedback ∧
    (∀ e : PyError, feedbackOrFallback (Except.error (GenFailure.pyError e)) =
      genericErrorFeedback) ∧
    apiKeyFeedback ≠ genericErrorFeedback := by
  refine ⟨rfl, rfl, rfl, rfl, rfl, rfl, rfl, rfl, rfl, rfl, rfl,
    fun e => rfl, ?_⟩
  simp [apiKeyFeedback, genericErrorFeedback]

/-- Witness for C5 at a concrete failing feedback call. -/
theorem grading_absorbs_feedback_failures_witness :
    (submit_quiz 0 [] [] [] (Except.error GenFailure.modelCallError)).1.score =
      (submit_quiz_loop 0 [] [] []).score ∧
    apiKeyFeedback ≠ genericErrorFeedback :=
  ⟨(grading_absorbs_feedback_failures 0 [] [] []
      (Except.error GenFailure.modelCallError)
      (Except.error GenFailure.apiKeyError)).1,
   (grading_absorbs_feedback_failures 0 [] [] []
      (Except.error GenFailure.modelCallError)
      (Except.error GenFailure.apiKeyError)).2.2.2.2.2.2.2.2.2.2.2.2⟩

/-- Claim C7: the persisted percentage is the half-even rounding of
100 times correct over total, and is zero for an empty question set;
3 of 4 gives 75 and 1 of 3 gives 33.33. -/
theorem percentage_formula_and_examples :
    (∀ (u : Nat) (qs : List GQuestion) (post : List (Nat × String))
      (store0 : AnswerStore) (fb : Except GenFailure FeedbackDraft),
      (submit_quiz u qs post store0 fb).1.percentage =
        if 0 < qs.length then
          pyRound2 (100 * ((submit_quiz_loop u qs post store0).correct_count : ℚ) /
            (qs.length : ℚ))
        else 0) ∧
    (submit_quiz 1 [⟨1, "", "A"⟩, ⟨2, "", "A"⟩, ⟨3, "", "A"⟩, ⟨4, "", "A"⟩]
        [(1, "A"), (2, "A"), (3, "A"), (4, "B")] []
        (Except.error GenFailure.apiKeyError)).1.percentage = 75 ∧
    (submit_quiz 1 [⟨1, "", "A"⟩, ⟨2, "", "A"⟩, ⟨3, "", "A"⟩]
        [(1, "A"), (2, "B"), (3, "B")] []
        (Except.error GenFailure.apiKeyError)).1.percentage = 3333 / 100 := by
  refine ⟨?_, ?_, ?_⟩
  · intro u qs post store0 fb
    rw [submit_quiz_percentage_eq]
    by_cases h : 0 < qs.length
    · rw [if_pos h, if_pos h, submit_loop_score_eq]
      congr 1
      ring
    · rw [if_neg h, if_neg h]
      norm_num [pyRound2, round_half_even]
  · rw [submit_quiz_percentage_eq]
    have hs : (submit_quiz_loop 1
        [⟨1, "", "A"⟩, ⟨2, "", "A"⟩, ⟨3, "", "A"⟩, ⟨4, "", "A"⟩]
        [(1, "A"), (2, "A"), (3, "A"), (4, "B")] []).score = 3 := by decide
    rw [hs]
    norm_num
    have hf : ⌊(75 : ℚ)⌋ = 75 := by rw [Int.floor_eq_iff]; norm_num
    simp only [pyRound2, round_half_even, hf]
    norm_num
  · rw [submit_quiz_percentage_eq]
    have hs : (submit_quiz_loop 1
        [⟨1, "", "A"⟩, ⟨2, "", "A"⟩, ⟨3, "", "A"⟩]
        [(1, "A"), (2, "B"), (3, "B")] []).score = 1 := by decide
    rw [hs]
    norm_num
    have hf : ⌊((100 : ℚ) / 3)⌋ = 33 := by rw [Int.floor_eq_iff]; norm_num
    simp only [pyRound2, round_half_even]
    norm_num [hf]

theorem map_keys_id {s : AnswerStore} {k : Nat × Nat} {v : String × Bool}
    (h : ∀ p ∈ s, p.1 ≠ k) :
    s.map (fun p => if p.1 = k then (k, v) else p) = s := by
  induction s with
  | nil => rfl
  | cons a t ih =>
    simp only [List.map_cons]
    rw [if_neg (h a (List.mem_cons_self a t)),
      ih (fun p hp => h p (List.mem_cons_of_mem a hp))]

theorem uoc_cons_ne (a : (Nat × Nat) × (String × Bool)) (s : AnswerStore)
    (k : Nat × Nat) (v : String × Bool) (h : a.1 ≠ k) :
    update_or_create (a :: s) k v = a :: update_or_create s k v := by
  by_cases hs : (s.any fun p => p.1 = k) = true
  · simp [update_or_create, List.any_cons, h, hs]
  · simp only [Bool.not_eq_true] at hs
    simp [update_or_create, List.any_cons, h, hs]

theorem uoc_cons_eq (a : (Nat × Nat) × (String × Bool)) (s : AnswerStore)
    (k : Nat × Nat) (v : String × Bool) (h : a.1 = k)
    (hnot : ∀ p ∈ s, p.1 ≠ k) :
    update_or_create (a :: s) k v = (k, v) :: s := by
  have hany : ((a :: s).any fun p => p.1 = k) = true := by
    simp [List.any_cons, h]
  simp only [update_or_create, hany, if_true]
  simp only [List.map_cons, if_pos h]
  rw [map_keys_id hnot]

theorem keys_map_upd (s : AnswerStore) (k : Nat × Nat) (v : String × Bool) :
    (s.map (fun p => if p.1 = k then (k, v) else p)).map Prod.fst =
      s.map Prod.fst := by
  induction s with
  | nil => rfl
  | cons a t ih =>
    simp only [List.map_cons, ih]
    by_cases h : a.1 = k <;> simp [h]

theorem keys_uoc (s : AnswerStore) (k : Nat × Nat) (v : String × Bool) :
    (update_or_create s k v).map Prod.fst =
      if (s.any fun p => p.1 = k) = true then s.map Prod.fst
      else s.map Prod.fst ++ [k] := by
  by_cases ha : (s.any fun p => p.1 = k) = true
  · simp only [update_or_create, ha, if_true]
    exact keys_map_upd s k v
  · simp only [Bool.not_eq_true] at ha
    simp [update_or_create, ha]

theorem uoc_props (s : AnswerStore) (k : Nat × Nat) (v : String × Bool)
    (h : (s.map Prod.fst).Nodup) :
    (update_or_create s k v).countP (fun p => p.1 = k) = 1 ∧
    (update_or_create s k v).find? (fun p => p.1 = k) = some (k, v) ∧
    ((update_or_create s k v).map Prod.fst).Nodup := by
  induction s with
  | nil =>
    refine ⟨?_, ?_, ?_⟩
    · simp [update_or_create]
    · simp [update_or_create, List.find?]
    · simp [update_or_create]
  | cons a t ih =>
    have hnk : a.1 ∉ t.map Prod.fst := by
      simp only [List.map_cons, List.nodup_cons] at h
      exact h.1
    have htd : (t.map Prod.fst).Nodup := by
      simp only [List.map_cons, List.nodup_cons] at h
      exact h.2
    by_cases hak : a.1 = k
    · have hnot : ∀ p ∈ t, p.1 ≠ k := by
        intro p hp hpk
        exact hnk (by rw [hak, ← hpk]; exact List.mem_map_of_mem Prod.fst hp)
      rw [uoc_cons_eq a t k v hak hnot]
      refine ⟨?_, ?_, ?_⟩
      · have hz : t.countP (fun p => p.1 = k) = 0 := by
          rw [List.countP_eq_zero]
          intro p hp
          simp [hnot p hp]
        simp [List.countP_cons, hz]
      · simp [List.find?]
      · simp only [List.map_cons, List.nodup_cons]
        refine ⟨?_, htd⟩
        intro hmem
        rcases List.mem_map.mp hmem with ⟨p, hp, hpk⟩
        exact hnot p hp hpk
    · rw [uoc_cons_ne a t k v hak]
      obtain ⟨ih1, ih2, ih3⟩ := ih htd
      refine ⟨?_, ?_, ?_⟩
      · simp [List.countP_cons, hak, ih1]
      · rw [List.find?_cons_of_neg _ (by simp [hak]), ih2]
      · simp only [List.map_cons, List.nodup_cons]
        refine ⟨?_, ih3⟩
        rw [keys_uoc]
        by_cases ht : (t.any fun p => p.1 = k) = true
        · simp [ht, hnk]
        · simp only [Bool.not_eq_true] at ht
          simp [ht, hnk, hak]

/-- Claim C8: on a store with unique (learner, question) keys, the
upsert keeps keys unique, and two successive submissions for the same
key leave exactly one record holding the latest selection and flag. -/
theorem answer_upsert_unique (store : AnswerStore) (k : Nat × Nat)
    (v1 v2 : String × Bool) (h : (store.map Prod.fst).Nodup) :
    ((update_or_create store k v1).map Prod.fst).Nodup ∧
    (update_or_create (update_or_create store k v1) k v2).countP
      (fun p => p.1 = k) = 1 ∧
    (update_or_create (update_or_create store k v1) k v2).find?
      (fun p => p.1 = k) = some (k, v2) := by
  have h1 := uoc_props store k v1 h
  have h2 := uoc_props (update_or_create store k v1) k v2 h1.2.2
  exact ⟨h1.2.2, h2.1, h2.2.1⟩

/-- Witness for C8: two submissions into an empty store. -/
theorem answer_upsert_unique_witness :
    (((update_or_create [] ((1 : Nat), (1 : Nat)) ("A", true)).map Prod.fst).Nodup) ∧
    (update_or_create (update_or_create [] (1, 1) ("A", true)) (1, 1)
      ("B", false)).countP (fun p => p.1 = (1, 1)) = 1 ∧
    (update_or_create (update_or_create [] (1, 1) ("A", true)) (1, 1)
      ("B", false)).find? (fun p => p.1 = (1, 1)) = some ((1, 1), ("B", false)) :=
  answer_upsert_unique [] (1, 1) ("A", true) ("B", false) (by simp)

end QuizGenix
